import Mathlib

/-!
Shallow embedding of `src/sora2-mini.mjs`, a small Express proxy around a
text/image-to-video provider API.  Pure fragments of the JavaScript are
rendered as Lean functions.  External effects are passed in explicitly:
the provider (network) appears as a function argument, the filesystem
probe `fs.existsSync(charFile(name))` as a predicate `String → Bool`, the
`sharp` image encoder as a function from the JPEG quality setting to the
encoded byte length, and the lowdb-backed job collection (`history.json`)
as a list of records threaded through each handler.
-/

namespace Sora2Mini

/-- JSON-ish field values stored in job records. -/
inductive JVal where
  | str (s : String)
  | num (n : Int)
  | bool (b : Bool)
  | null
  deriving DecidableEq, Repr

/-- A job record is a partial map from field names to values
(a JavaScript object, observed through its fields). -/
abbrev Rec := String → Option JVal

/-- The empty object. -/
def emptyRec : Rec := fun _ => none

/-- Object literal: first binding of a key wins (keys are distinct in
every literal appearing in the source). -/
def ofList (l : List (String × JVal)) : Rec := fun k => l.lookup k

/-- The object `{ id }` holding only the job id. -/
def idRec (id : String) : Rec := fun k => if k = "id" then some (JVal.str id) else none

/-- JavaScript spread-merge `{ ...old, ...patch }`: patch fields win,
unspecified fields are retained. -/
def mergeRec (old patch : Rec) : Rec :=
  fun k => match patch k with
    | some v => some v
    | none => old k

/-- `j.id === id` — the predicate used by `findIndex` in `upsertJob`. -/
def hasId (id : String) (r : Rec) : Bool := decide (r "id" = some (JVal.str id))

/-- `upsertJob(id, patch)` (src/sora2-mini.mjs:45-52): the first record whose
`id` field equals `id` is replaced by `{ ...arr[i], ...patch }`; if none
matches, `{ id, ...patch }` is pushed at the end.  (`findIndex` + in-place
`arr[i] = ...` / `push` is rendered as structural recursion replacing the
first match.) -/
def upsertJob (jobs : List Rec) (id : String) (patch : Rec) : List Rec :=
  match jobs with
  | [] => [mergeRec (idRec id) patch]
  | j :: rest =>
      if hasId id j then mergeRec j patch :: rest
      else j :: upsertJob rest id patch

/-- `arr.find(j => j.id === id)` — the lookup used by `GET /api/job/:id`. -/
def getJob (jobs : List Rec) (id : String) : Option Rec := jobs.find? (hasId id)

/-- `DONE = new Set(['completed','succeeded','ready'])` (line 53). -/
def DONE : List String := ["completed", "succeeded", "ready"]

/-- Strip leading whitespace. -/
def dropWsList (l : List Char) : List Char := l.dropWhile Char.isWhitespace

/-- `String.prototype.trim()`: strip whitespace at both ends. -/
def jsTrim (s : String) : String :=
  ⟨(dropWsList ((dropWsList s.data).reverse)).reverse⟩

/-- `String.prototype.toLowerCase()` (ASCII range, which is all the
source compares). -/
def lowerStr (s : String) : String := ⟨s.data.map Char.toLower⟩

/-- `String.prototype.startsWith(pat)`. -/
def jsStartsWith (s pat : String) : Bool := pat.data.isPrefixOf s.data

/-- `ALLOWED_SECONDS = ['4','8','12']` (line 25). -/
def ALLOWED_SECONDS : List String := ["4", "8", "12"]

/-- `DEFAULT_SIZE = '1280x720'` (line 27). -/
def DEFAULT_SIZE : String := "1280x720"

/-- `ALLOWED_MODELS = new Set(['sora-2','sora-2-pro'])` (line 20). -/
def ALLOWED_MODELS : List String := ["sora-2", "sora-2-pro"]

/-- `normSeconds` (line 88): keep the trimmed value when it is in the
allowed set, else `'4'`. -/
def normSeconds (v : String) : String :=
  if ALLOWED_SECONDS.contains (jsTrim v) then jsTrim v else "4"

/-- A nonempty all-digit character run — one `\d+` group. -/
def isDigitRun (l : List Char) : Bool := !l.isEmpty && l.all Char.isDigit

/-- Split a character list at every occurrence of the separator
(`String.prototype.split` with a one-character separator). -/
def splitOnChar (sep : Char) : List Char → List (List Char)
  | [] => [[]]
  | c :: rest =>
      match splitOnChar sep rest with
      | [] => [[]]
      | p :: ps => if c = sep then [] :: p :: ps else (c :: p) :: ps

/-- The test `/^\d+x\d+$/.test(s)`: the string splits at a single `'x'`
into two nonempty digit runs (digits themselves never contain `'x'`, so
splitting at `'x'` faithfully captures the anchored regex). -/
def sizeRegexTest (s : String) : Bool :=
  match splitOnChar 'x' s.data with
  | [a, b] => isDigitRun a && isDigitRun b
  | _ => false

/-- `normSize` (line 89): keep strings matching `/^\d+x\d+$/`, else the
default `1280x720`. -/
def normSize (v : String) : String :=
  if sizeRegexTest v then v else DEFAULT_SIZE

/-- The numeric value of a digit run (`parseInt` on a `\d+` group). -/
def natOfDigits (l : List Char) : Nat :=
  l.foldl (fun n c => n * 10 + (c.toNat - '0'.toNat)) 0

/-- The size pattern as the specification words it for C4: `WIDTHxHEIGHT`
with positive integers (digit runs whose numeric value is positive).
Stated from the spec's words, to be compared with `sizeRegexTest` from
the source. -/
def specSizeMatch (s : String) : Bool :=
  match splitOnChar 'x' s.data with
  | [a, b] =>
      isDigitRun a && isDigitRun b
        && decide (0 < natOfDigits a) && decide (0 < natOfDigits b)
  | _ => false

/-- `parseSize` (lines 90-94): parse `W x H` from the trimmed string, with
`(1280, 720)` when the anchored regex does not match. -/
def parseSize (v : String) : Nat × Nat :=
  match splitOnChar 'x' (jsTrim v).data with
  | [a, b] =>
      if isDigitRun a && isDigitRun b then (natOfDigits a, natOfDigits b)
      else (1280, 720)
  | _ => (1280, 720)

/-- Result of `processImageBufferToSize`: the encoded reference image.
`width`/`height` are the exact output pixel dimensions (the `sharp`
`resize(w, h, { fit })` call produces exactly the requested geometry —
modelled from the library contract, the library being external to the
repository). -/
structure ProcessedImage where
  width : Nat
  height : Nat
  len : Nat
  mime : String
  filename : String
  deriving DecidableEq, Repr

/-- `processImageBufferToSize` (lines 95-110).  The `sharp` encoding
pipeline is abstracted as `enc : Nat → Nat`, mapping the JPEG quality
setting to the encoded byte length for the given input and target
geometry.  Returns the produced image together with the list of quality
settings attempted, in order. -/
def processImageBufferToSize (enc : Nat → Nat) (desiredSize : String) :
    ProcessedImage × List Nat :=
  let (w, h) := parseSize desiredSize
  let mk : Nat → ProcessedImage := fun len =>
    { width := w, height := h, len := len, mime := "image/jpeg",
      filename := "reference_" ++ toString w ++ "x" ++ toString h ++ ".jpg" }
  let out1 := enc 85
  if out1 > 15 * 1024 * 1024 then (mk (enc 70), [85, 70])
  else (mk out1, [85])

/-- `s.indexOf(pat) >= 0`: the pattern occurs somewhere in the list. -/
def listContains (l pat : List Char) : Bool :=
  match l with
  | [] => pat.isEmpty
  | _ :: rest => pat.isPrefixOf l || listContains rest pat

/-- `/pat/i.test(s)` for a plain lowercase pattern. -/
def containsCI (s pat : String) : Bool := listContains (lowerStr s).data pat.data

/-- Match `\s+authorized` at the head of the character list: at least one
whitespace character, then `authorized` (which starts with a non-space
letter, so the greediness of `\s+` is irrelevant). -/
def wsThenAuthorized (l : List Char) : Bool :=
  match l with
  | [] => false
  | c :: rest => c.isWhitespace && "authorized".data.isPrefixOf (dropWsList rest)

/-- Scan for the regex alternative `not\s+authorized` anywhere in the
(already lowercased) character list. -/
def hasNotWsAuthorized : List Char → Bool
  | [] => false
  | c :: rest =>
      ("not".data.isPrefixOf (c :: rest) && wsThenAuthorized ((c :: rest).drop 3))
        || hasNotWsAuthorized rest

/-- The access-shaped test on the provider error text (line 710):
`/forbidden|not\s+authorized|access|permission/i.test(m) || m.startsWith('403:')`. -/
def accessShaped (m : String) : Bool :=
  containsCI m "forbidden"
    || hasNotWsAuthorized (lowerStr m).data
    || containsCI m "access"
    || containsCI m "permission"
    || jsStartsWith m "403:"

/-- The moderation-shaped test (line 709): `/moderation/i.test(m)`. -/
def moderationShaped (m : String) : Bool := containsCI m "moderation"

/-- Environment-driven configuration used by `POST /api/render`
(lines 14-20). -/
structure Cfg where
  apiKey : String
  defaultModel : String
  fallbackModel : String
  fallbackWithoutRef : Bool

/-- The multipart body fields of `POST /api/render`; an absent field and
the empty string coincide (the source reads each as `req.body?.f || ''`
or compares with a literal). -/
structure RenderBody where
  prompt : String
  seconds : String
  size : String
  fit : String
  model : String
  useLock : String
  character : String

/-- Which reference image was attached to an outbound form: the ad-hoc
upload of this request, or the persisted character-lock image. -/
inductive RefKind where
  | adhoc
  | lock
  deriving DecidableEq, Repr

/-- The outbound multipart form of one submission attempt (`buildForm`,
lines 680-696), with the processed reference abstracted to its origin. -/
structure Form where
  prompt : String
  seconds : String
  size : String
  model : String
  ref : Option RefKind
  deriving DecidableEq, Repr

/-- The provider's reply to `POST /v1/videos`, reduced to the fields the
handler reads. -/
structure JobResp where
  id : String
  status : Option String
  deriving DecidableEq, Repr

/-- The JSON answer of `POST /api/render`. -/
inductive RenderResult where
  | ok (id : String) (note : Option String)
  | err (code : Nat) (msg : String)
  deriving DecidableEq, Repr

/-- Everything observable about one run of the render handler: the HTTP
answer, the job store afterwards, and the provider-create calls issued,
in order. -/
structure RenderOutcome where
  result : RenderResult
  jobs : List Rec
  calls : List Form

/-- `job.status || 'queued'` — JavaScript `||`, where the empty string is
falsy. -/
def orQueued : Option String → String
  | some s => if s = "" then "queued" else s
  | none => "queued"

/-- `ALLOWED_MODELS.has(requestedModel) ? requestedModel : DEFAULT_MODEL`
with `requestedModel = String(req.body?.model || DEFAULT_MODEL)`
(lines 677-678). -/
def resolvedModel (cfg : Cfg) (body : RenderBody) : String :=
  let requested := if body.model = "" then cfg.defaultModel else body.model
  if ALLOWED_MODELS.contains requested then requested else cfg.defaultModel

/-- `!!(useLock && charName && fs.existsSync(charFile(charName)))` —
whether the persisted character lock would be attached. -/
def usedLockOf (body : RenderBody) (lockExists : String → Bool) : Bool :=
  (body.useLock == "1") && !decide ((jsTrim body.character) = "") && lockExists (jsTrim body.character)

/-- `buildForm(includeAdhocRef, includeLock, modelName)` (lines 680-696):
attach the ad-hoc upload when present and requested, else the character
lock when opted in and the lock file exists, else nothing. -/
def buildForm (hadRef : Bool) (body : RenderBody) (lockExists : String → Bool)
    (prompt seconds size : String)
    (includeAdhocRef includeLock : Bool) (modelName : String) : Form :=
  { prompt := prompt, seconds := seconds, size := size, model := modelName,
    ref :=
      if includeAdhocRef && hadRef then some RefKind.adhoc
      else if includeLock && usedLockOf body lockExists then some RefKind.lock
      else none }

/-- The outbound form of the primary attempt (line 699). -/
def primaryForm (cfg : Cfg) (hadRef : Bool) (body : RenderBody)
    (lockExists : String → Bool) : Form :=
  buildForm hadRef body lockExists (jsTrim body.prompt) (normSeconds body.seconds)
    (normSize body.size) true true (resolvedModel cfg body)

/-- The outbound form of the model-fallback attempt (line 716). -/
def fallbackForm (cfg : Cfg) (hadRef : Bool) (body : RenderBody)
    (lockExists : String → Bool) : Form :=
  buildForm hadRef body lockExists (jsTrim body.prompt) (normSeconds body.seconds)
    (normSize body.size) true true cfg.fallbackModel

/-- The outbound form of the moderation reference-removal attempt
(line 731): no reference at all, original (non-fallback) model. -/
def norefForm (cfg : Cfg) (hadRef : Bool) (body : RenderBody)
    (lockExists : String → Bool) : Form :=
  buildForm hadRef body lockExists (jsTrim body.prompt) (normSeconds body.seconds)
    (normSize body.size) false false (resolvedModel cfg body)

/-- The moderation reference-removal stage (lines 729-741): fires only
when a reference had been resolved, the ORIGINAL failure text was
moderation-shaped, and the fallback is enabled; otherwise the pending
error is surfaced through the outer catch as a 400. -/
def moderationStage (cfg : Cfg) (hadRef : Bool) (body : RenderBody)
    (lockExists : String → Bool) (provider : Form → Except String JobResp)
    (jobs0 : List Rec) (now : String)
    (isModeration hadAnyRef : Bool) (errMsg : String)
    (callsSoFar : List Form) : RenderOutcome :=
  if hadAnyRef && isModeration && cfg.fallbackWithoutRef then
    let form2 := norefForm cfg hadRef body lockExists
    match provider form2 with
    | .ok job2 =>
        { result := .ok job2.id (some "Reference removed due to moderation"),
          jobs := upsertJob jobs0 job2.id (ofList [
            ("prompt", .str (jsTrim body.prompt)),
            ("seconds", .str (normSeconds body.seconds)),
            ("size", .str (normSize body.size)),
            ("model", .str (resolvedModel cfg body)),
            ("status", .str (orQueued job2.status)),
            ("character", .str (jsTrim body.character)),
            ("createdAt", .str now),
            ("note", .str "reference removed due to moderation")]),
          calls := callsSoFar ++ [form2] }
    | .error m2 =>
        { result := .err 400 ("OpenAI create failed: " ++ m2),
          jobs := jobs0, calls := callsSoFar ++ [form2] }
  else
    { result := .err 400 ("OpenAI create failed: " ++ errMsg),
      jobs := jobs0, calls := callsSoFar }

/-- `POST /api/render` (lines 664-746).  `hadRef = !!req.file`;
`lockExists name` models `fs.existsSync(charFile(name))`; `provider`
models `fetchJSON('https://api.openai.com/v1/videos', ...)`, returning
the parsed job on a 2xx answer and the thrown error message otherwise;
`now` is the ISO timestamp. -/
def renderHandler (cfg : Cfg) (hadRef : Bool) (body : RenderBody)
    (lockExists : String → Bool) (provider : Form → Except String JobResp)
    (jobs0 : List Rec) (now : String) : RenderOutcome :=
  if cfg.apiKey = "" then
    { result := .err 400 "OpenAI create failed: Server missing OPENAI_API_KEY.",
      jobs := jobs0, calls := [] }
  else if (jsTrim body.prompt) = "" then
    { result := .err 400 "Empty prompt", jobs := jobs0, calls := [] }
  else
    let model := resolvedModel cfg body
    let form1 := primaryForm cfg hadRef body lockExists
    match provider form1 with
    | .ok job1 =>
        { result := .ok job1.id none,
          jobs := upsertJob jobs0 job1.id (ofList [
            ("prompt", .str (jsTrim body.prompt)),
            ("seconds", .str (normSeconds body.seconds)),
            ("size", .str (normSize body.size)),
            ("model", .str model),
            ("status", .str (orQueued job1.status)),
            ("character", .str (jsTrim body.character)),
            ("createdAt", .str now),
            ("usedLock", .bool (usedLockOf body lockExists))]),
          calls := [form1] }
    | .error m1 =>
        let isModeration := moderationShaped m1
        let hasAccessIssue := accessShaped m1
        let hadAnyRef := hadRef || usedLockOf body lockExists
        if hasAccessIssue && !decide (cfg.fallbackModel = "")
            && !decide (cfg.fallbackModel = model)
            && ALLOWED_MODELS.contains cfg.fallbackModel then
          let formFb := fallbackForm cfg hadRef body lockExists
          match provider formFb with
          | .ok jobFb =>
              { result := .ok jobFb.id (some ("Model fallback to " ++ cfg.fallbackModel)),
                jobs := upsertJob jobs0 jobFb.id (ofList [
                  ("prompt", .str (jsTrim body.prompt)),
                  ("seconds", .str (normSeconds body.seconds)),
                  ("size", .str (normSize body.size)),
                  ("model", .str cfg.fallbackModel),
                  ("status", .str (orQueued jobFb.status)),
                  ("createdAt", .str now),
                  ("character", .str (jsTrim body.character)),
                  ("usedLock", .bool (usedLockOf body lockExists)),
                  ("note", .str ("model fallback from " ++ model ++ " -> " ++ cfg.fallbackModel))]),
                calls := [form1, formFb] }
          | .error mFb =>
              moderationStage cfg hadRef body lockExists provider jobs0 now
                isModeration hadAnyRef mFb [form1, formFb]
        else
          moderationStage cfg hadRef body lockExists provider jobs0 now
            isModeration hadAnyRef m1 [form1]

/-- The provider's reply to `GET /v1/videos/:id`, reduced to the fields
the status handler reads (`Number(out.progress)` is folded into the
optional numeric `progress`). -/
structure ProviderStatus where
  id : String
  status : String
  progress : Option Int
  deriving DecidableEq, Repr

/-- `out.progress ?? null` as a stored field value. -/
def progVal : Option Int → JVal
  | some n => .num n
  | none => .null

/-- The JSON answer of `GET /api/status/:id`. -/
inductive StatusResult where
  | ok (out : ProviderStatus)
  | err (code : Nat) (msg : String)
  deriving DecidableEq, Repr

/-- `GET /api/status/:id` (lines 748-776).  `resp` is the outcome of the
provider retrieve (`.error m` both for a non-2xx answer, whose message is
already `status: body`, and for a transport failure); `probeOk` is the
outcome of the `HEAD` content probe, consulted only in the
stuck-at-100% branch. -/
def statusHandler (jobs : List Rec) (resp : Except String ProviderStatus)
    (probeOk : Bool) (now : String) : StatusResult × List Rec :=
  match resp with
  | .error m => (.err 400 ("OpenAI retrieve failed: " ++ m), jobs)
  | .ok out =>
      let status0 := lowerStr out.status
      let rewriteReady :=
        decide (status0 = "in_progress") && decide (out.progress = some 100) && probeOk
      let out' := if rewriteReady then { out with status := "ready" } else out
      let statusFinal := if rewriteReady then "ready" else status0
      let base := [("status", JVal.str out'.status),
                   ("progress", progVal out.progress),
                   ("updatedAt", JVal.str now)]
      let patch :=
        if DONE.contains statusFinal then ofList (base ++ [("completedAt", JVal.str now)])
        else ofList base
      (.ok out', upsertJob jobs out.id patch)

/-- `GET /api/list` (line 796): the limit forwarded upstream,
`Math.max(1, Math.min(50, Number(req.query.limit) || 10))`.  The input is
the value of `Number(req.query.limit)`: `none` for `NaN` (absent or
non-numeric), otherwise the numeric value; `0` is falsy, so `|| 10`
replaces it. -/
def listLimit (q : Option ℚ) : ℚ :=
  match q with
  | none => 10
  | some x => if x = 0 then 10 else max 1 (min 50 x)

/-! ## Job store lemmas -/

theorem mergeRec_apply_none {old patch : Rec} {k : String} (h : patch k = none) :
    mergeRec old patch k = old k := by
  simp [mergeRec, h]

theorem mergeRec_apply_some {old patch : Rec} {k : String} {v : JVal} (h : patch k = some v) :
    mergeRec old patch k = some v := by
  simp [mergeRec, h]

theorem hasId_iff {id : String} {r : Rec} : hasId id r = true ↔ r "id" = some (JVal.str id) := by
  simp [hasId]

/-- Looking up the upserted id finds the shallow merge of the previous
record (the bare `{ id }` object when the id was absent) with the patch,
for the id-free patches the source issues. -/
theorem getJob_upsertJob (jobs : List Rec) (id : String) (patch : Rec)
    (hp : patch "id" = none) :
    getJob (upsertJob jobs id patch) id =
      some (mergeRec ((getJob jobs id).getD (idRec id)) patch) := by
  induction jobs with
  | nil =>
      have hx : mergeRec (idRec id) patch "id" = some (JVal.str id) := by
        rw [mergeRec_apply_none hp]; simp [idRec]
      simp [upsertJob, getJob, List.find?, hasId, hx]
  | cons j rest ih =>
      cases hj : hasId id j with
      | true =>
          have hjid : j "id" = some (JVal.str id) := hasId_iff.mp hj
          have hx : mergeRec j patch "id" = some (JVal.str id) := by
            rw [mergeRec_apply_none hp, hjid]
          simp [upsertJob, hj, getJob, List.find?, hasId, hx, hjid]
      | false =>
          simpa [upsertJob, hj, getJob, List.find?] using ih

/-- The id fields present after an upsert: the previous ones, possibly
plus the upserted id. -/
theorem idsOf_upsertJob_mem (jobs : List Rec) (id : String) (patch : Rec)
    (hp : patch "id" = none) :
    ∀ x ∈ (upsertJob jobs id patch).map (fun j => j "id"),
      x ∈ jobs.map (fun j => j "id") ∨ x = some (JVal.str id) := by
  induction jobs with
  | nil =>
      intro x hx
      simp [upsertJob, mergeRec_apply_none hp, idRec] at hx
      right; simp [hx]
  | cons j rest ih =>
      intro x hx
      cases hj : hasId id j with
      | true =>
          simp [upsertJob, hj] at hx
          rcases hx with hx | hx
          · left; rw [mergeRec_apply_none hp] at hx; simp [hx]
          · left; simp; right; exact hx
      | false =>
          simp [upsertJob, hj] at hx
          rcases hx with hx | hx
          · left; simp [hx]
          · rcases ih x (by simpa using hx) with h | h
            · left; simp at h ⊢; tauto
            · right; exact h

/-- One id-free upsert keeps the id fields pairwise distinct. -/
theorem nodup_idsOf_upsertJob (jobs : List Rec) (id : String) (patch : Rec)
    (hp : patch "id" = none)
    (h : (jobs.map (fun j => j "id")).Nodup) :
    ((upsertJob jobs id patch).map (fun j => j "id")).Nodup := by
  induction jobs with
  | nil => simp [upsertJob]
  | cons j rest ih =>
      rw [List.map_cons, List.nodup_cons] at h
      cases hj : hasId id j with
      | true =>
          have : mergeRec j patch "id" = j "id" := mergeRec_apply_none hp
          simpa [upsertJob, hj, List.nodup_cons, this] using h
      | false =>
          have hne : ¬ j "id" = some (JVal.str id) := by
            intro hc; exact absurd (hasId_iff.mpr hc) (by simp [hj])
          simp only [upsertJob, hj, Bool.false_eq_true, if_false, List.map_cons]
          refine List.nodup_cons.mpr ⟨?_, ih h.2⟩
          intro hmem
          rcases idsOf_upsertJob_mem rest id patch hp _ hmem with hin | heq
          · exact h.1 hin
          · exact hne heq

/-! ## Claim theorems -/

/-- C3: Job Store `upsert` merges by shallow field overlay: for any store,
`upsert(id, {status:"a"})` followed by `upsert(id, {progress:50})` yields
a record for `id` containing both `status "a"` and `progress 50`; a
subsequent `upsert(id, {status:"b"})` replaces the stored record by
exactly its shallow overlay with that one-field patch (so only `status`
changes and every unspecified field is retained); and upserting an
absent id creates the record, carrying the id and the patch fields. -/
theorem upsertJob_shallow_merge_C3 (jobs : List Rec) (id : String) :
    let pA : Rec := ofList [("status", JVal.str "a")]
    let pP : Rec := ofList [("progress", JVal.num 50)]
    let pB : Rec := ofList [("status", JVal.str "b")]
    let s1 := upsertJob jobs id pA
    let s2 := upsertJob s1 id pP
    let s3 := upsertJob s2 id pB
    ((getJob s2 id).map (fun r => (r "status", r "progress")))
        = some (some (JVal.str "a"), some (JVal.num 50))
    ∧ getJob s3 id = (getJob s2 id).map (fun r2 => mergeRec r2 pB)
    ∧ (getJob jobs id = none →
        (getJob s1 id).map (fun r => (r "id", r "status"))
          = some (some (JVal.str id), some (JVal.str "a"))) := by
  intro pA pP pB s1 s2 s3
  have hA : pA "id" = none := by decide
  have hP : pP "id" = none := by decide
  have hB : pB "id" = none := by decide
  have h1 : getJob s1 id = some (mergeRec ((getJob jobs id).getD (idRec id)) pA) :=
    getJob_upsertJob jobs id pA hA
  have h2 : getJob s2 id = some (mergeRec ((getJob s1 id).getD (idRec id)) pP) :=
    getJob_upsertJob s1 id pP hP
  have h3 : getJob s3 id = some (mergeRec ((getJob s2 id).getD (idRec id)) pB) :=
    getJob_upsertJob s2 id pB hB
  refine ⟨?_, ?_, ?_⟩
  · rw [h2, h1]
    have hs : (mergeRec (mergeRec ((getJob jobs id).getD (idRec id)) pA) pP) "status"
        = some (JVal.str "a") := by
      rw [mergeRec_apply_none (show pP "status" = none by decide)]
      exact mergeRec_apply_some (by decide)
    have hp : (mergeRec (mergeRec ((getJob jobs id).getD (idRec id)) pA) pP) "progress"
        = some (JVal.num 50) := mergeRec_apply_some (by decide)
    simp [hs, hp]
  · rw [h3, h2]
    simp
  · intro h0
    rw [h1, h0]
    have hid : (mergeRec (idRec id) pA) "id" = some (JVal.str id) := by
      rw [mergeRec_apply_none hA]; simp [idRec]
    have hs : (mergeRec (idRec id) pA) "status" = some (JVal.str "a") :=
      mergeRec_apply_some (by decide)
    simp [hid, hs]

/-- Witness for C3 at the empty store and id `"w"`. -/
theorem upsertJob_shallow_merge_C3_witness :
    ((getJob (upsertJob (upsertJob ([] : List Rec) "w" (ofList [("status", JVal.str "a")])) "w"
        (ofList [("progress", JVal.num 50)])) "w").map (fun r => (r "status", r "progress")))
      = some (some (JVal.str "a"), some (JVal.num 50))
    ∧ (getJob (upsertJob ([] : List Rec) "w" (ofList [("status", JVal.str "a")])) "w").map
        (fun r => (r "id", r "status")) = some (some (JVal.str "w"), some (JVal.str "a")) :=
  ⟨(upsertJob_shallow_merge_C3 [] "w").1,
   (upsertJob_shallow_merge_C3 [] "w").2.2 rfl⟩

/-- C8: the one-record-per-id invariant is preserved: starting from a
collection whose records carry pairwise-distinct `id` fields, any
sequence of upserts (with id-free patches, as at every `upsertJob` call
site in the source) never produces two records with the same id. -/
theorem upsertJob_unique_ids_C8 (jobs : List Rec) (ops : List (String × Rec))
    (hops : ∀ op ∈ ops, op.2 "id" = none)
    (h : (jobs.map (fun j => j "id")).Nodup) :
    ((ops.foldl (fun s op => upsertJob s op.1 op.2) jobs).map (fun j => j "id")).Nodup := by
  induction ops generalizing jobs with
  | nil => simpa
  | cons op rest ih =>
      simp only [List.foldl_cons]
      exact ih (upsertJob jobs op.1 op.2)
        (fun o ho => hops o (by simp [ho]))
        (nodup_idsOf_upsertJob jobs op.1 op.2 (hops op (by simp)) h)

/-- Witness for C8: a two-record store, one updating and one creating
upsert. -/
theorem upsertJob_unique_ids_C8_witness :
    (ofList [("status", JVal.str "x")]) "id" = none
    ∧ (ofList [("progress", JVal.num 9)]) "id" = none
    ∧ ([ofList [("id", JVal.str "a")], ofList [("id", JVal.str "b")]].map
        (fun j => j "id")).Nodup
    ∧ (([("a", ofList [("status", JVal.str "x")]), ("c", ofList [("progress", JVal.num 9)])].foldl
          (fun s op => upsertJob s op.1 op.2)
          [ofList [("id", JVal.str "a")], ofList [("id", JVal.str "b")]]).map
            (fun j => j "id")).Nodup :=
  ⟨by decide, by decide, by decide,
   upsertJob_unique_ids_C8 _ _ (by decide) (by decide)⟩

/-- C4, counterexample: `"0x0"` does not match `WIDTHxHEIGHT` with
positive integers, yet `normSize` keeps it instead of falling back to
the default `1280x720` — the source regex `/^\d+x\d+$/` accepts zero
values. -/
theorem normSize_C4_counterexample :
    specSizeMatch "0x0" = false
    ∧ normSize "0x0" = "0x0"
    ∧ normSize "0x0" ≠ DEFAULT_SIZE := by
  refine ⟨by decide, by decide, by decide⟩

/-- C4, amended: for every size string that does not match `\d+x\d+`
(one or more digits, `x`, one or more digits — zero values allowed),
size normalization returns the default `"1280x720"`. -/
theorem normSize_default_C4 (s : String) (h : sizeRegexTest s = false) :
    normSize s = DEFAULT_SIZE := by
  simp [normSize, h]

/-- Witness for the amended C4 at the non-matching string `"abc"`. -/
theorem normSize_default_C4_witness :
    sizeRegexTest "abc" = false ∧ normSize "abc" = DEFAULT_SIZE :=
  ⟨by decide, normSize_default_C4 "abc" (by decide)⟩

/-- C5, counterexample: with an encoder whose output is 16 MiB at every
quality, both encodings are attempted and the oversized second result is
returned as-is — the output is NOT at most 15 MiB. -/
theorem processImage_C5_counterexample :
    (processImageBufferToSize (fun _ => 16 * 1024 * 1024) "1280x720").1.len
        > 15 * 1024 * 1024
    ∧ (processImageBufferToSize (fun _ => 16 * 1024 * 1024) "1280x720").2 = [85, 70] := by
  refine ⟨by decide, by decide⟩

/-- C5, amended: for any encoder and target size the output image has
exactly the parsed target width and height; when the first encoding (at
quality 85) is within 15 MiB it is returned after that single attempt,
and when it exceeds 15 MiB exactly one second encoding at quality 70 is
attempted and returned regardless of its size — no further retry. -/
theorem processImage_geometry_retry_C5 (enc : Nat → Nat) (s : String) :
    (processImageBufferToSize enc s).1.width = (parseSize s).1
    ∧ (processImageBufferToSize enc s).1.height = (parseSize s).2
    ∧ (enc 85 ≤ 15 * 1024 * 1024 →
        (processImageBufferToSize enc s).2 = [85]
        ∧ (processImageBufferToSize enc s).1.len = enc 85)
    ∧ (enc 85 > 15 * 1024 * 1024 →
        (processImageBufferToSize enc s).2 = [85, 70]
        ∧ (processImageBufferToSize enc s).1.len = enc 70)
    ∧ (processImageBufferToSize enc s).2.length ≤ 2 := by
  by_cases h : enc 85 > 15 * 1024 * 1024
  · refine ⟨?_, ?_, ?_, ?_, ?_⟩ <;>
      simp [processImageBufferToSize, h, Nat.not_le.mpr h]
  · refine ⟨?_, ?_, ?_, ?_, ?_⟩ <;>
      simp [processImageBufferToSize, h]

/-- Witness for the amended C5: a first encoding of 20 MB forces exactly
one retry at quality 70, whose 1000-byte result is returned at the
parsed 720×1280 geometry. -/
theorem processImage_geometry_retry_C5_witness :
    (processImageBufferToSize (fun q => if q = 85 then 20000000 else 1000) "720x1280").1.width = 720
    ∧ (processImageBufferToSize (fun q => if q = 85 then 20000000 else 1000) "720x1280").1.height = 1280
    ∧ (processImageBufferToSize (fun q => if q = 85 then 20000000 else 1000) "720x1280").2 = [85, 70]
    ∧ (processImageBufferToSize (fun q => if q = 85 then 20000000 else 1000) "720x1280").1.len = 1000 := by
  have h := processImage_geometry_retry_C5 (fun q => if q = 85 then 20000000 else 1000) "720x1280"
  refine ⟨by rw [h.1]; decide, by rw [h.2.1]; decide, (h.2.2.2.1 (by decide)).1,
    by rw [(h.2.2.2.1 (by decide)).2]; decide⟩

/-- C7: when the provider status retrieve fails (non-2xx answer or
transport failure), the poll surfaces a 400 provider-request failure
carrying the provider's message and leaves the job store untouched. -/
theorem statusHandler_provider_error_C7 (jobs : List Rec) (m : String)
    (probeOk : Bool) (now : String) :
    statusHandler jobs (.error m) probeOk now
      = (.err 400 ("OpenAI retrieve failed: " ++ m), jobs) := rfl

/-- C10, counterexample: `Number("7.5")` is numeric and truthy, so the
handler forwards `7.5` upstream — the forwarded limit is not an
integer, contradicting the claim that it always is. -/
theorem listLimit_C10_counterexample :
    listLimit (some ((15 : ℚ)/2)) = 15/2
    ∧ (listLimit (some ((15 : ℚ)/2))).isInt = false := by
  have h : listLimit (some ((15 : ℚ)/2)) = 15/2 := by
    rw [listLimit]
    rw [if_neg (by norm_num)]
    rw [min_eq_right (by norm_num), max_eq_right (by norm_num)]
  exact ⟨h, by rw [h]; norm_num [Rat.isInt]⟩

/-- C10, amended: the forwarded limit always lies in `[1, 50]`;
absent/non-numeric (`NaN`) and zero inputs default to 10, inputs above
50 clamp to 50, nonzero inputs below 1 clamp to 1, and numeric inputs
already in `[1, 50]` are forwarded unchanged — hence a non-integer such
as 7.5 passes through, so the forwarded value need not be an integer. -/
theorem listLimit_range_C10 (x : ℚ) :
    listLimit none = 10
    ∧ listLimit (some 0) = 10
    ∧ 1 ≤ listLimit (some x)
    ∧ listLimit (some x) ≤ 50
    ∧ (50 < x → listLimit (some x) = 50)
    ∧ (x < 1 → x ≠ 0 → listLimit (some x) = 1)
    ∧ (1 ≤ x → x ≤ 50 → listLimit (some x) = x) := by
  refine ⟨rfl, by norm_num [listLimit], ?_, ?_, ?_, ?_, ?_⟩
  · by_cases h0 : x = 0
    · simp [listLimit, h0]
    · simp only [listLimit, if_neg h0]
      exact le_max_left 1 _
  · by_cases h0 : x = 0
    · norm_num [listLimit, h0]
    · simp only [listLimit, if_neg h0]
      exact max_le (by norm_num) (min_le_left 50 x)
  · intro h
    have h0 : x ≠ 0 := by positivity
    simp only [listLimit, if_neg h0]
    rw [min_eq_left h.le, max_eq_right (by norm_num)]
  · intro h h0
    simp only [listLimit, if_neg h0]
    rw [min_eq_right (by linarith), max_eq_left (by linarith)]
  · intro h1 h50
    have h0 : x ≠ 0 := by positivity
    simp only [listLimit, if_neg h0]
    rw [min_eq_right h50, max_eq_right h1]

/-- Witness for the amended C10 at a clamped-high, a clamped-low and a
defaulting input. -/
theorem listLimit_range_C10_witness :
    listLimit none = 10
    ∧ listLimit (some 0) = 10
    ∧ listLimit (some 60) = 50
    ∧ listLimit (some (-3)) = 1
    ∧ listLimit (some 10) = 10 :=
  ⟨(listLimit_range_C10 1).1, (listLimit_range_C10 1).2.1,
   (listLimit_range_C10 60).2.2.2.2.1 (by norm_num),
   (listLimit_range_C10 (-3)).2.2.2.2.2.1 (by norm_num) (by norm_num),
   (listLimit_range_C10 10).2.2.2.2.2.2 (by norm_num) (by norm_num)⟩

/-- C2: polling a job whose provider-reported status is `in_progress`
with numeric progress 100: when the HEAD content probe succeeds, the
status returned to the caller and persisted in the store is rewritten to
`ready` and `completedAt` is stamped with the poll time; when the probe
fails, the returned and persisted status stay `in_progress` and
`completedAt` is not set by the poll — the persisted field keeps its
previous value, `none` when the job had no record. -/
theorem statusHandler_stuck100_C2 (jobs : List Rec) (out : ProviderStatus) (now : String)
    (hs : out.status = "in_progress") (hp : out.progress = some 100) :
    (statusHandler jobs (.ok out) true now).1 = .ok { out with status := "ready" }
    ∧ (getJob (statusHandler jobs (.ok out) true now).2 out.id).map
        (fun r => (r "status", r "completedAt"))
      = some (some (JVal.str "ready"), some (JVal.str now))
    ∧ (statusHandler jobs (.ok out) false now).1 = .ok out
    ∧ (getJob (statusHandler jobs (.ok out) false now).2 out.id).map
        (fun r => (r "status", r "completedAt"))
      = some (some (JVal.str "in_progress"),
          ((getJob jobs out.id).getD (idRec out.id)) "completedAt") := by
  have hl : lowerStr out.status = "in_progress" := by rw [hs]; decide
  have eT : statusHandler jobs (.ok out) true now
      = (.ok { out with status := "ready" },
         upsertJob jobs out.id (ofList [("status", JVal.str "ready"),
           ("progress", progVal out.progress), ("updatedAt", JVal.str now),
           ("completedAt", JVal.str now)])) := by
    simp [statusHandler, hl, hp, DONE]
  have eF : statusHandler jobs (.ok out) false now
      = (.ok out,
         upsertJob jobs out.id (ofList [("status", JVal.str out.status),
           ("progress", progVal out.progress), ("updatedAt", JVal.str now)])) := by
    simp [statusHandler, hl, hp, DONE]
  refine ⟨by rw [eT], ?_, by rw [eF], ?_⟩
  · rw [eT]
    rw [getJob_upsertJob jobs out.id _ rfl]
    simp only [Option.map_some']
    rw [mergeRec_apply_some (v := JVal.str "ready") rfl,
        mergeRec_apply_some (v := JVal.str now) rfl]
  · rw [eF]
    rw [getJob_upsertJob jobs out.id _ rfl]
    simp only [Option.map_some']
    have h1 : (ofList [("status", JVal.str out.status),
        ("progress", progVal out.progress), ("updatedAt", JVal.str now)]) "status"
        = some (JVal.str out.status) := rfl
    rw [mergeRec_apply_some h1, mergeRec_apply_none rfl, hs]

/-- Witness for C2: a fresh job at `in_progress`/100, polled with a
succeeding and a failing probe. -/
theorem statusHandler_stuck100_C2_witness :
    (statusHandler [] (.ok ⟨"z", "in_progress", some 100⟩) true "now").1
        = .ok ⟨"z", "ready", some 100⟩
    ∧ (getJob (statusHandler [] (.ok ⟨"z", "in_progress", some 100⟩) true "now").2 "z").map
        (fun r => (r "status", r "completedAt"))
      = some (some (JVal.str "ready"), some (JVal.str "now"))
    ∧ (statusHandler [] (.ok ⟨"z", "in_progress", some 100⟩) false "now").1
        = .ok ⟨"z", "in_progress", some 100⟩
    ∧ (getJob (statusHandler [] (.ok ⟨"z", "in_progress", some 100⟩) false "now").2 "z").map
        (fun r => (r "status", r "completedAt"))
      = some (some (JVal.str "in_progress"), none) := by
  have h := statusHandler_stuck100_C2 [] ⟨"z", "in_progress", some 100⟩ "now" rfl rfl
  exact ⟨h.1, h.2.1, h.2.2.1, by rw [h.2.2.2]; decide⟩

/-- A model in the allowed set is a nonempty string. -/
theorem allowed_ne_empty {x : String} (h : ALLOWED_MODELS.contains x = true) : ¬ x = "" := by
  intro he; subst he; exact absurd h (by decide)

/-- C9: a render submission whose prompt is empty after trimming fails
with a 400 `Empty prompt` answer, no provider request is issued and
nothing is retried (the call trace is empty), and the store is
untouched. -/
theorem renderHandler_empty_prompt_C9 (cfg : Cfg) (hadRef : Bool) (body : RenderBody)
    (lockExists : String → Bool) (provider : Form → Except String JobResp)
    (jobs0 : List Rec) (now : String)
    (hKey : cfg.apiKey ≠ "") (hPrompt : jsTrim body.prompt = "") :
    (renderHandler cfg hadRef body lockExists provider jobs0 now).result
        = .err 400 "Empty prompt"
    ∧ (renderHandler cfg hadRef body lockExists provider jobs0 now).calls = []
    ∧ (renderHandler cfg hadRef body lockExists provider jobs0 now).jobs = jobs0 := by
  refine ⟨?_, ?_, ?_⟩ <;> simp [renderHandler, hKey, hPrompt]

/-- Witness for C9: a whitespace-only prompt with a configured key. -/
theorem renderHandler_empty_prompt_C9_witness :
    ("k" : String) ≠ ""
    ∧ jsTrim "  " = ""
    ∧ (renderHandler ⟨"k", "sora-2", "sora-2", false⟩ false
        ⟨"  ", "4", "1280x720", "cover", "", "0", ""⟩
        (fun _ => false) (fun _ => .error "unreached") [] "t").result
      = .err 400 "Empty prompt"
    ∧ (renderHandler ⟨"k", "sora-2", "sora-2", false⟩ false
        ⟨"  ", "4", "1280x720", "cover", "", "0", ""⟩
        (fun _ => false) (fun _ => .error "unreached") [] "t").calls = [] := by
  have h := renderHandler_empty_prompt_C9 ⟨"k", "sora-2", "sora-2", false⟩ false
    ⟨"  ", "4", "1280x720", "cover", "", "0", ""⟩
    (fun _ => false) (fun _ => .error "unreached") [] "t" (by decide) (by decide)
  exact ⟨by decide, by decide, h.1, h.2.1⟩

/-- C1, counterexample: the primary attempt fails with a message starting
with `403` (and not mentioning moderation), the second attempt uses the
distinct allowed fallback model and fails with a message containing
`moderation`, a reference was attached and reference-removal fallback is
enabled — yet NO third attempt is made (only two provider calls happen),
because the code pattern-matches `moderation` against the ORIGINAL error
text only. -/
theorem render_fallback_C1_counterexample :
    jsStartsWith "403: Project does not have access" "403:" = true
    ∧ moderationShaped "Rejected by moderation" = true
    ∧ (renderHandler ⟨"k", "sora-2", "sora-2-pro", true⟩ true
        ⟨"p", "4", "1280x720", "cover", "sora-2", "0", ""⟩ (fun _ => false)
        (fun f =>
          if f.model = "sora-2" ∧ f.ref = some RefKind.adhoc then
            .error "403: Project does not have access"
          else if f.model = "sora-2-pro" then .error "Rejected by moderation"
          else .ok ⟨"j3", some "queued"⟩)
        [] "t").calls
      = [⟨"p", "4", "1280x720", "sora-2", some RefKind.adhoc⟩,
         ⟨"p", "4", "1280x720", "sora-2-pro", some RefKind.adhoc⟩]
    ∧ (renderHandler ⟨"k", "sora-2", "sora-2-pro", true⟩ true
        ⟨"p", "4", "1280x720", "cover", "sora-2", "0", ""⟩ (fun _ => false)
        (fun f =>
          if f.model = "sora-2" ∧ f.ref = some RefKind.adhoc then
            .error "403: Project does not have access"
          else if f.model = "sora-2-pro" then .error "Rejected by moderation"
          else .ok ⟨"j3", some "queued"⟩)
        [] "t").result
      = .err 400 "OpenAI create failed: Rejected by moderation" := by
  refine ⟨by decide, by decide, by decide, by decide⟩

/-- C1, amended: when the primary attempt fails with a message starting
with `403:` and a distinct allowed fallback model is configured, the
second attempt uses the fallback model (same reference handling); and
when additionally the ORIGINAL failure message contains `moderation`
(the code never re-tests the model-fallback failure), the second attempt
also fails, a reference was attached and reference-removal fallback is
enabled, a third attempt is made with no reference attached and the
original (non-fallback) model. -/
theorem render_fallback_C1 (cfg : Cfg) (hadRef : Bool) (body : RenderBody)
    (lockExists : String → Bool) (provider : Form → Except String JobResp)
    (jobs0 : List Rec) (now : String) (m1 : String)
    (hKey : cfg.apiKey ≠ "") (hPrompt : jsTrim body.prompt ≠ "")
    (h1 : provider (primaryForm cfg hadRef body lockExists) = .error m1)
    (h403 : jsStartsWith m1 "403:" = true)
    (hfbne : cfg.fallbackModel ≠ resolvedModel cfg body)
    (hfballowed : ALLOWED_MODELS.contains cfg.fallbackModel = true) :
    (renderHandler cfg hadRef body lockExists provider jobs0 now).calls.take 2
        = [primaryForm cfg hadRef body lockExists, fallbackForm cfg hadRef body lockExists]
    ∧ (fallbackForm cfg hadRef body lockExists).model = cfg.fallbackModel
    ∧ (∀ mFb, provider (fallbackForm cfg hadRef body lockExists) = .error mFb →
        moderationShaped m1 = true →
        (hadRef || usedLockOf body lockExists) = true →
        cfg.fallbackWithoutRef = true →
        (renderHandler cfg hadRef body lockExists provider jobs0 now).calls
            = [primaryForm cfg hadRef body lockExists,
               fallbackForm cfg hadRef body lockExists,
               norefForm cfg hadRef body lockExists]
          ∧ (norefForm cfg hadRef body lockExists).ref = none
          ∧ (norefForm cfg hadRef body lockExists).model = resolvedModel cfg body) := by
  have hne : ¬ cfg.fallbackModel = "" := allowed_ne_empty hfballowed
  have hmem : cfg.fallbackModel ∈ ALLOWED_MODELS := by simpa using hfballowed
  have hacc : accessShaped m1 = true := by
    simp [accessShaped, h403]
  refine ⟨?_, rfl, ?_⟩
  · cases hFb : provider (fallbackForm cfg hadRef body lockExists) with
    | ok jobFb =>
        simp [renderHandler, hKey, hPrompt, h1, hFb, hacc, hne, hfbne, hmem]
    | error mFb =>
        cases hNr : provider (norefForm cfg hadRef body lockExists) with
        | ok j2 =>
            simp [renderHandler, moderationStage, hKey, hPrompt, h1, hFb, hNr,
              hacc, hne, hfbne, hmem]
            split_ifs <;> simp
        | error m2 =>
            simp [renderHandler, moderationStage, hKey, hPrompt, h1, hFb, hNr,
              hacc, hne, hfbne, hmem]
            split_ifs <;> simp
  · intro mFb hFb hm href hen
    refine ⟨?_, rfl, rfl⟩
    cases hNr : provider (norefForm cfg hadRef body lockExists) with
    | ok j2 =>
        simp [renderHandler, moderationStage, hKey, hPrompt, h1, hFb, hNr,
          hacc, hne, hfbne, hmem, hm, href, hen]
    | error m2 =>
        simp [renderHandler, moderationStage, hKey, hPrompt, h1, hFb, hNr,
          hacc, hne, hfbne, hmem, hm, href, hen]

/-- Witness for the amended C1: a primary failure whose message is both
`403`-prefixed and moderation-shaped, a failing fallback-model attempt,
an attached reference and the fallback enabled — all three attempts
happen as described. -/
theorem render_fallback_C1_witness :
    (renderHandler ⟨"k", "sora-2", "sora-2-pro", true⟩ true
        ⟨"p", "4", "1280x720", "cover", "sora-2", "0", ""⟩ (fun _ => false)
        (fun f =>
          if f.ref = some RefKind.adhoc then .error "403: moderation blocked"
          else .ok ⟨"j3", some "queued"⟩)
        [] "t").calls
      = [⟨"p", "4", "1280x720", "sora-2", some RefKind.adhoc⟩,
         ⟨"p", "4", "1280x720", "sora-2-pro", some RefKind.adhoc⟩,
         ⟨"p", "4", "1280x720", "sora-2", none⟩] := by
  have h := render_fallback_C1 ⟨"k", "sora-2", "sora-2-pro", true⟩ true
    ⟨"p", "4", "1280x720", "cover", "sora-2", "0", ""⟩ (fun _ => false)
    (fun f =>
      if f.ref = some RefKind.adhoc then .error "403: moderation blocked"
      else .ok ⟨"j3", some "queued"⟩)
    [] "t" "403: moderation blocked" (by decide) (by decide) rfl (by decide)
    (by decide) (by decide)
  have h3 := (h.2.2 "403: moderation blocked" rfl (by decide) (by decide) (by decide)).1
  rw [h3]; decide

/-- C6, counterexample: on the moderation reference-removal success path
the store upsert records prompt, seconds, size, model, status and
creation timestamp — but NOT whether a lock/reference was used: the
stored record has no `usedLock` field, although a reference had been
attached to the original attempt. -/
theorem render_upsert_C6_counterexample :
    (renderHandler ⟨"k", "sora-2", "sora-2", true⟩ true
        ⟨"p", "4", "1280x720", "cover", "sora-2", "0", ""⟩ (fun _ => false)
        (fun f => if f.ref = some RefKind.adhoc then .error "blocked input_moderation"
                  else .ok ⟨"jj", some "queued"⟩)
        [] "t").result = .ok "jj" (some "Reference removed due to moderation")
    ∧ ((getJob (renderHandler ⟨"k", "sora-2", "sora-2", true⟩ true
        ⟨"p", "4", "1280x720", "cover", "sora-2", "0", ""⟩ (fun _ => false)
        (fun f => if f.ref = some RefKind.adhoc then .error "blocked input_moderation"
                  else .ok ⟨"jj", some "queued"⟩)
        [] "t").jobs "jj").map
        (fun r => (r "prompt", r "model", r "status", r "createdAt", r "usedLock")))
      = some (some (JVal.str "p"), some (JVal.str "sora-2"), some (JVal.str "queued"),
          some (JVal.str "t"), none) := by
  refine ⟨by decide, by decide⟩

/-- C6, amended: the primary and model-fallback success paths end with a
store upsert recording prompt, seconds, size, the model actually used,
the initial status, the creation timestamp, and the lock/reference flag
`usedLock`; the moderation reference-removal path records all of these
except `usedLock` (left untouched — absent for a fresh job id),
recording instead the note `reference removed due to moderation`. -/
theorem render_upsert_fields_C6 (cfg : Cfg) (hadRef : Bool) (body : RenderBody)
    (lockExists : String → Bool) (provider : Form → Except String JobResp)
    (jobs0 : List Rec) (now : String)
    (hKey : cfg.apiKey ≠ "") (hPrompt : jsTrim body.prompt ≠ "") :
    (∀ j1, provider (primaryForm cfg hadRef body lockExists) = .ok j1 →
      (getJob (renderHandler cfg hadRef body lockExists provider jobs0 now).jobs j1.id).map
          (fun r => (r "prompt", r "seconds", r "size", r "model", r "status",
            r "createdAt", r "usedLock"))
        = some (some (JVal.str (jsTrim body.prompt)),
            some (JVal.str (normSeconds body.seconds)),
            some (JVal.str (normSize body.size)),
            some (JVal.str (resolvedModel cfg body)),
            some (JVal.str (orQueued j1.status)),
            some (JVal.str now),
            some (JVal.bool (usedLockOf body lockExists))))
    ∧ (∀ m1 jFb, provider (primaryForm cfg hadRef body lockExists) = .error m1 →
        accessShaped m1 = true →
        cfg.fallbackModel ≠ resolvedModel cfg body →
        ALLOWED_MODELS.contains cfg.fallbackModel = true →
        provider (fallbackForm cfg hadRef body lockExists) = .ok jFb →
        (getJob (renderHandler cfg hadRef body lockExists provider jobs0 now).jobs jFb.id).map
            (fun r => (r "prompt", r "seconds", r "size", r "model", r "status",
              r "createdAt", r "usedLock", r "note"))
          = some (some (JVal.str (jsTrim body.prompt)),
              some (JVal.str (normSeconds body.seconds)),
              some (JVal.str (normSize body.size)),
              some (JVal.str cfg.fallbackModel),
              some (JVal.str (orQueued jFb.status)),
              some (JVal.str now),
              some (JVal.bool (usedLockOf body lockExists)),
              some (JVal.str ("model fallback from " ++ resolvedModel cfg body
                ++ " -> " ++ cfg.fallbackModel))))
    ∧ (∀ m1 j2, provider (primaryForm cfg hadRef body lockExists) = .error m1 →
        accessShaped m1 = false →
        moderationShaped m1 = true →
        (hadRef || usedLockOf body lockExists) = true →
        cfg.fallbackWithoutRef = true →
        provider (norefForm cfg hadRef body lockExists) = .ok j2 →
        (getJob (renderHandler cfg hadRef body lockExists provider jobs0 now).jobs j2.id).map
            (fun r => (r "prompt", r "seconds", r "size", r "model", r "status",
              r "createdAt", r "note", r "usedLock"))
          = some (some (JVal.str (jsTrim body.prompt)),
              some (JVal.str (normSeconds body.seconds)),
              some (JVal.str (normSize body.size)),
              some (JVal.str (resolvedModel cfg body)),
              some (JVal.str (orQueued j2.status)),
              some (JVal.str now),
              some (JVal.str "reference removed due to moderation"),
              ((getJob jobs0 j2.id).getD (idRec j2.id)) "usedLock")) := by
  refine ⟨?_, ?_, ?_⟩
  · intro j1 h1
    have e : (renderHandler cfg hadRef body lockExists provider jobs0 now).jobs
        = upsertJob jobs0 j1.id (ofList [
            ("prompt", .str (jsTrim body.prompt)),
            ("seconds", .str (normSeconds body.seconds)),
            ("size", .str (normSize body.size)),
            ("model", .str (resolvedModel cfg body)),
            ("status", .str (orQueued j1.status)),
            ("character", .str (jsTrim body.character)),
            ("createdAt", .str now),
            ("usedLock", .bool (usedLockOf body lockExists))]) := by
      simp [renderHandler, hKey, hPrompt, h1]
    rw [e, getJob_upsertJob jobs0 j1.id _ rfl]
    rfl
  · intro m1 jFb h1 hacc hfbne hfballowed hFb
    have hne := allowed_ne_empty hfballowed
    have hmem : cfg.fallbackModel ∈ ALLOWED_MODELS := by simpa using hfballowed
    have e : (renderHandler cfg hadRef body lockExists provider jobs0 now).jobs
        = upsertJob jobs0 jFb.id (ofList [
            ("prompt", .str (jsTrim body.prompt)),
            ("seconds", .str (normSeconds body.seconds)),
            ("size", .str (normSize body.size)),
            ("model", .str cfg.fallbackModel),
            ("status", .str (orQueued jFb.status)),
            ("createdAt", .str now),
            ("character", .str (jsTrim body.character)),
            ("usedLock", .bool (usedLockOf body lockExists)),
            ("note", .str ("model fallback from " ++ resolvedModel cfg body
              ++ " -> " ++ cfg.fallbackModel))]) := by
      simp [renderHandler, hKey, hPrompt, h1, hFb, hacc, hne, hfbne, hmem]
    rw [e, getJob_upsertJob jobs0 jFb.id _ rfl]
    rfl
  · intro m1 j2 h1 haccf hm href hen hNr
    have e : (renderHandler cfg hadRef body lockExists provider jobs0 now).jobs
        = upsertJob jobs0 j2.id (ofList [
            ("prompt", .str (jsTrim body.prompt)),
            ("seconds", .str (normSeconds body.seconds)),
            ("size", .str (normSize body.size)),
            ("model", .str (resolvedModel cfg body)),
            ("status", .str (orQueued j2.status)),
            ("character", .str (jsTrim body.character)),
            ("createdAt", .str now),
            ("note", .str "reference removed due to moderation")]) := by
      simp [renderHandler, moderationStage, hKey, hPrompt, h1, haccf, hm, href, hen, hNr]
    rw [e, getJob_upsertJob jobs0 j2.id _ rfl]
    rfl

/-- Witness for the amended C6: a primary-path success records all seven
fields, including the lock flag. -/
theorem render_upsert_fields_C6_witness :
    ((getJob (renderHandler ⟨"k", "sora-2", "sora-2", false⟩ false
        ⟨"p", "8", "1920x1080", "cover", "sora-2-pro", "0", ""⟩ (fun _ => false)
        (fun _ => .ok ⟨"j1", some "queued"⟩) [] "t").jobs "j1").map
        (fun r => (r "prompt", r "seconds", r "size", r "model", r "status",
          r "createdAt", r "usedLock")))
      = some (some (JVal.str "p"), some (JVal.str "8"), some (JVal.str "1920x1080"),
          some (JVal.str "sora-2-pro"), some (JVal.str "queued"), some (JVal.str "t"),
          some (JVal.bool false)) := by
  have h := (render_upsert_fields_C6 ⟨"k", "sora-2", "sora-2", false⟩ false
    ⟨"p", "8", "1920x1080", "cover", "sora-2-pro", "0", ""⟩ (fun _ => false)
    (fun _ => .ok ⟨"j1", some "queued"⟩) [] "t" (by decide) (by decide)).1
    ⟨"j1", some "queued"⟩ rfl
  exact h.trans (by rfl)

end Sora2Mini
